import Mathlib

/-!
Shallow embedding of drivers/regulator/mv-vbus-regulator.c (Marvell USB VBUS
power regulator for Armada 380 SoCs) and verification of its specification.

The driver is modelled as pure Lean functions: external calls whose outcomes
the driver branches on (memory allocation, string duplication, the GPIO
request, framework registration) are supplied as explicit oracle inputs, and
the resources the driver acquires and releases (the two kstrdup strings, GPIO
pin ownership, framework registration) are tracked in an explicit resource
state. Error returns use the Linux errno convention: a negative errno value.
-/

/-- Linux errno value ENOMEM, returned negated by the driver. -/
def ENOMEM : Int := 12

/-- Linux errno value EINVAL, returned negated by the driver. -/
def EINVAL : Int := 22

/-- Linux errno value ENODEV, seen negated as a gpio lookup result. -/
def ENODEV : Int := 19

/-- Linux errno value EPROBE_DEFER, returned negated by the driver. -/
def EPROBE_DEFER : Int := 517

/-- Fields of struct regulator_init_data read by this driver: the constraints
block name, the min_uV/max_uV range, the boot_on flag and the apply_uV flag. -/
structure RegulatorInitData where
  name : Option String
  min_uV : Int
  max_uV : Int
  boot_on : Bool
  apply_uV : Bool
  deriving Repr, DecidableEq

/-- Raw device-tree inputs read by of_get_mv_vbus_config: the init-data block
returned by of_get_regulator_init_data (none when that call fails), the result
of of_get_named_gpio (a pin number when nonnegative, a negative errno
otherwise), the optional startup-delay-us property, and whether the
enable-active-high property is present. -/
structure OFNode where
  init_data : Option RegulatorInitData
  gpio_lookup : Int
  startup_delay_us : Option Nat
  enable_active_high : Bool
  deriving Repr, DecidableEq

/-- struct mv_vbus_config: the validated configuration produced by
of_get_mv_vbus_config or supplied directly as platform data. -/
structure MvVbusConfig where
  supply_name : Option String
  input_supply : Option String
  microvolts : Int
  gpio : Int
  startup_delay : Nat
  enable_high : Bool
  enabled_at_boot : Bool
  init_data : RegulatorInitData
  deriving Repr, DecidableEq

/-- of_get_mv_vbus_config, with allocOk modelling the devm_kzalloc of the
config structure. Mirrors the C control flow exactly: allocation failure is
-ENOMEM, missing init data is -EINVAL, a non-degenerate voltage range is
-EINVAL, a gpio lookup result of -ENODEV or -EPROBE_DEFER turns into
-EPROBE_DEFER, and any other gpio lookup result (including other negative
errnos) is stored in the config without error. The apply_uV flag is forced
off in the retained init data. The function never sets input_supply. -/
def of_get_mv_vbus_config (allocOk : Bool) (np : OFNode) :
    Except Int MvVbusConfig :=
  if !allocOk then Except.error (-ENOMEM)
  else
    match np.init_data with
    | none => Except.error (-EINVAL)
    | some init0 =>
      if init0.min_uV = init0.max_uV then
        if np.gpio_lookup = -ENODEV ∨ np.gpio_lookup = -EPROBE_DEFER then
          Except.error (-EPROBE_DEFER)
        else
          Except.ok
            { supply_name := init0.name
              input_supply := none
              microvolts := init0.min_uV
              gpio := np.gpio_lookup
              startup_delay := np.startup_delay_us.getD 0
              enable_high := np.enable_active_high
              enabled_at_boot := init0.boot_on
              init_data := { init0 with apply_uV := false } }
      else Except.error (-EINVAL)

/-- struct mv_vbus_data together with the regulator_desc fields probe fills
in (name, supply_name, n_voltages, enable_time). -/
structure MvVbusData where
  desc_name : String
  desc_supply_name : Option String
  desc_n_voltages : Nat
  desc_enable_time : Nat
  gpio : Int
  ena_gpio_invert : Bool
  microvolts : Int
  deriving Repr, DecidableEq

/-- mv_vbus_get_voltage: the stored microvolts when nonzero, else -EINVAL.
The C function only reads drvdata, so it is a pure function of the data. -/
def mv_vbus_get_voltage (data : MvVbusData) : Int :=
  if data.microvolts ≠ 0 then data.microvolts else -EINVAL

/-- mv_vbus_list_voltage: -EINVAL for any selector other than 0, the stored
microvolts (whatever its value) for selector 0. The C function only reads
drvdata, so it is a pure function of the data. -/
def mv_vbus_list_voltage (data : MvVbusData) (selector : Nat) : Int :=
  if selector ≠ 0 then -EINVAL else data.microvolts

/-- mv_vbus_gpio_set: returns the status code together with the level written
to the pin (none when nothing was written, true meaning electrically high).
The C reads drvdata from rdev->reg_data, which may be null. -/
def mv_vbus_gpio_set (drvdata : Option MvVbusData) (enable : Bool) :
    Int × Option Bool :=
  match drvdata with
  | none => (-EINVAL, none)
  | some d =>
    let gpio_val := if enable then !d.ena_gpio_invert else d.ena_gpio_invert
    (0, some gpio_val)

/-- mv_vbus_enable_supply delegates to mv_vbus_gpio_set with enable = true. -/
def mv_vbus_enable_supply (drvdata : Option MvVbusData) : Int × Option Bool :=
  mv_vbus_gpio_set drvdata true

/-- mv_vbus_disable_supply delegates to mv_vbus_gpio_set with enable = false. -/
def mv_vbus_disable_supply (drvdata : Option MvVbusData) : Int × Option Bool :=
  mv_vbus_gpio_set drvdata false

/-- mv_vbus_suspend_disable delegates to mv_vbus_disable_supply. -/
def mv_vbus_suspend_disable (drvdata : Option MvVbusData) : Int × Option Bool :=
  mv_vbus_disable_supply drvdata

/-- ARCH_NR_GPIOS bound used by gpio_is_valid on this platform. -/
def ARCH_NR_GPIOS : Nat := 512

/-- gpio_is_valid from linux/gpio.h: nonnegative and below ARCH_NR_GPIOS. -/
def gpio_is_valid (n : Int) : Bool :=
  decide (0 ≤ n ∧ n < (ARCH_NR_GPIOS : Int))

/-- Initial-level flag probe passes to gpio_request_one, from the four-way
branch on enabled_at_boot and enable_high in the C probe (true models
GPIOF_OUT_INIT_HIGH, false models GPIOF_OUT_INIT_LOW). -/
def probeInitLevel (enabled_at_boot enable_high : Bool) : Bool :=
  if enabled_at_boot then
    if enable_high then true else false
  else
    if enable_high then false else true

/-- Bookkeeping of the releasable resources probe and remove manipulate: the
kstrdup copy held in desc.name, the kstrdup copy held in desc.supply_name,
ownership of the GPIO pin, and registration with the regulator framework. -/
structure ResState where
  name_alloc : Bool
  supply_alloc : Bool
  pin_owned : Bool
  registered : Bool
  deriving Repr, DecidableEq

/-- Resource state at probe entry: nothing acquired. -/
def ResState.empty : ResState := ⟨false, false, false, false⟩

/-- Outcomes of the external calls probe makes: the devm allocations of the
config and of drvdata, the two kstrdup calls, gpio_request_one (0 on success,
a negative errno on failure), and regulator_register (register_err is the
errno-valued result used when register_ok is false). -/
structure ProbeEnv where
  config_alloc_ok : Bool
  drvdata_alloc_ok : Bool
  name_dup_ok : Bool
  supply_dup_ok : Bool
  gpio_request_result : Int
  register_ok : Bool
  register_err : Int
  deriving Repr, DecidableEq

/-- Result of a probe run: the returned status (ok drvdata or a negative
errno), the final resource state, and the level gpio_request_one drove the
pin to (none when the pin was never acquired). -/
structure ProbeOutcome where
  result : Except Int MvVbusData
  st : ResState
  pin_init : Option Bool

/-- Device data as filled in by a successful probe from a given config and
the two duplicated strings. -/
def mkDrvdata (config : MvVbusConfig) (name : String)
    (supplyName : Option String) : MvVbusData :=
  { desc_name := name
    desc_supply_name := supplyName
    desc_n_voltages := if config.microvolts ≠ 0 then 1 else 0
    desc_enable_time := config.startup_delay
    gpio := config.gpio
    ena_gpio_invert := !config.enable_high
    microvolts := config.microvolts }

/-- Tail of probe after both string-duplication steps: the gpio validity
check, gpio_request_one, and regulator_register, transcribing the C error
labels exactly. On gpio_request_one failure the C jumps to err_name, which
frees only desc.name (desc.supply_name is not freed). On an invalid gpio or
a regulator_register failure the C jumps to err_input, which frees
desc.supply_name then desc.name. No error label releases the gpio. -/
def probe_tail (config : MvVbusConfig) (env : ProbeEnv) (name : String)
    (supplyName : Option String) (st : ResState) : ProbeOutcome :=
  if gpio_is_valid config.gpio then
    if env.gpio_request_result ≠ 0 then
      -- goto err_name: kfree(drvdata->desc.name) only
      ⟨Except.error env.gpio_request_result, { st with name_alloc := false },
        none⟩
    else
      let lvl := probeInitLevel config.enabled_at_boot config.enable_high
      if env.register_ok then
        ⟨Except.ok (mkDrvdata config name supplyName),
          { st with pin_owned := true, registered := true }, some lvl⟩
      else
        -- goto err_input: both strings freed, gpio not released
        ⟨Except.error env.register_err,
          { st with pin_owned := true, supply_alloc := false, name_alloc := false },
          some lvl⟩
  else
    -- goto err_input: kfree(supply_name) then kfree(name)
    ⟨Except.error (-EINVAL),
      { st with supply_alloc := false, name_alloc := false }, none⟩

/-- Body of mv_vbus_reg_probe after the config has been resolved: the devm
allocation of drvdata, kstrdup of the supply name (kstrdup of a null pointer
yields null, which the C treats as -ENOMEM), the optional kstrdup of the
input supply, then probe_tail. -/
def probe_core (config : MvVbusConfig) (env : ProbeEnv) : ProbeOutcome :=
  if !env.drvdata_alloc_ok then
    -- goto err: nothing kfree-able acquired yet
    ⟨Except.error (-ENOMEM), ResState.empty, none⟩
  else
    match (if env.name_dup_ok then config.supply_name else none) with
    | none =>
      -- goto err: desc.name is null, nothing to free
      ⟨Except.error (-ENOMEM), ResState.empty, none⟩
    | some name =>
      let afterName : ResState := { ResState.empty with name_alloc := true }
      match config.input_supply with
      | some s =>
        if env.supply_dup_ok then
          probe_tail config env name (some s)
            { afterName with supply_alloc := true }
        else
          -- goto err_name: kfree(drvdata->desc.name)
          ⟨Except.error (-ENOMEM), { afterName with name_alloc := false },
            none⟩
      | none => probe_tail config env name none afterName

/-- mv_vbus_reg_probe: on a device-tree device the config comes from
of_get_mv_vbus_config and extraction errors are returned unchanged; otherwise
the platform data is used, a missing platform config being -ENOMEM. -/
def mv_vbus_reg_probe (of_node : Option OFNode)
    (platform_data : Option MvVbusConfig) (env : ProbeEnv) : ProbeOutcome :=
  match of_node with
  | some np =>
    match of_get_mv_vbus_config env.config_alloc_ok np with
    | Except.error e => ⟨Except.error e, ResState.empty, none⟩
    | Except.ok config => probe_core config env
  | none =>
    match platform_data with
    | none => ⟨Except.error (-ENOMEM), ResState.empty, none⟩
    | some config => probe_core config env

/-- Calls mv_vbus_reg_remove makes, in order, used to state ordering
properties of the remove path. -/
inductive DriverAction where
  | unregister
  | gpio_free
  | kfree_supply_name
  | kfree_name
  deriving Repr, DecidableEq

/-- mv_vbus_reg_remove: unregisters from the framework, frees
desc.supply_name, frees desc.name, and returns 0. The C body contains no
gpio_free call, so pin ownership in the resource state is left unchanged.
The returned list records the calls made, in the order the C makes them. -/
def mv_vbus_reg_remove (st : ResState) : Int × ResState × List DriverAction :=
  (0,
   { st with registered := false, supply_alloc := false, name_alloc := false },
   [DriverAction.unregister, DriverAction.kfree_supply_name,
    DriverAction.kfree_name])

/-! Concrete inputs used by the closed theorems and witnesses below. -/

/-- Sample init data with a degenerate 5 V range, not enabled at boot. -/
def sampleInit : RegulatorInitData := ⟨some "vbus", 5000000, 5000000, false, false⟩

/-- Sample device-tree node: 5 V fixed rail on gpio 42, active-high. -/
def sampleNode : OFNode := ⟨some sampleInit, 42, none, true⟩

/-- Environment in which every external call succeeds. -/
def allOkEnv : ProbeEnv := ⟨true, true, true, true, 0, true, 0⟩

/-- Environment in which only regulator_register fails, with -EINVAL. -/
def regFailEnv : ProbeEnv := ⟨true, true, true, true, 0, false, -EINVAL⟩

/-- Platform config with an input supply present, on valid gpio 42. -/
def leakCfg : MvVbusConfig :=
  ⟨some "vbus", some "usb-supply", 5000000, 42, 0, true, false, sampleInit⟩

/-- Environment in which only gpio_request_one fails, with -EBUSY (-16). -/
def busyEnv : ProbeEnv := ⟨true, true, true, true, -16, true, 0⟩

/-- Init data whose degenerate voltage range is 0 microvolts. -/
def zeroVoltInit : RegulatorInitData := ⟨some "vbus", 0, 0, false, false⟩

/-- Device-tree node describing a 0-microvolt rail on valid gpio 42. -/
def zeroVoltNode : OFNode := ⟨some zeroVoltInit, 42, none, true⟩

/-- Device data carrying microvolts = 0, as built by probe from
zeroVoltNode in the all-success environment. -/
def zeroVoltDrv : MvVbusData := ⟨"vbus", none, 0, 0, 42, false, 0⟩

/-- Device-tree node whose gpio lookup reports -ENODEV (device absent). -/
def deferNode : OFNode := ⟨some sampleInit, -ENODEV, none, false⟩

/-- Platform config whose gpio fails the validity check. -/
def badPinCfg : MvVbusConfig :=
  ⟨some "vbus", none, 5000000, -5, 0, true, false, sampleInit⟩

/-- Sample platform config on valid gpio 42, active-high, off at boot. -/
def sampleCfg : MvVbusConfig :=
  ⟨some "vbus", none, 5000000, 42, 0, true, false, sampleInit⟩

/-- Device data built by a successful probe of sampleCfg. -/
def sampleDrv : MvVbusData := mkDrvdata sampleCfg "vbus" none

/-- Resource state of a live, successfully probed instance. -/
def liveState : ResState := ⟨true, true, true, true⟩

/-! Helper lemmas characterizing successful runs. -/

/-- Inversion for probe_tail: a successful result is exactly the drvdata
built by mkDrvdata, the gpio passed the validity check, the instance is
registered, and the pin was driven to the level of the four-way table. -/
lemma probe_tail_ok (config : MvVbusConfig) (env : ProbeEnv) (name : String)
    (supplyName : Option String) (st : ResState) (d : MvVbusData)
    (h : (probe_tail config env name supplyName st).result = Except.ok d) :
    d = mkDrvdata config name supplyName ∧
    gpio_is_valid config.gpio = true ∧
    (probe_tail config env name supplyName st).st.registered = true ∧
    (probe_tail config env name supplyName st).pin_init =
      some (probeInitLevel config.enabled_at_boot config.enable_high) := by
  by_cases hg : gpio_is_valid config.gpio = true
  · by_cases hr : env.gpio_request_result = 0
    · by_cases hro : env.register_ok = true
      · have hd : d = mkDrvdata config name supplyName := by
          have h2 := h
          simp [probe_tail, hg, hr, hro] at h2
          exact h2.symm
        refine ⟨hd, hg, ?_, ?_⟩ <;> simp [probe_tail, hg, hr, hro]
      · simp [probe_tail, hg, hr, hro] at h
    · simp [probe_tail, hg, hr] at h
  · simp [probe_tail, hg] at h

/-- Inversion for probe_core: a successful result is the drvdata built by
mkDrvdata from some duplicated strings, the gpio passed the validity check,
the instance is registered, and the pin was driven per the four-way table. -/
lemma probe_core_ok (config : MvVbusConfig) (env : ProbeEnv) (d : MvVbusData)
    (h : (probe_core config env).result = Except.ok d) :
    (∃ name supplyName, d = mkDrvdata config name supplyName) ∧
    gpio_is_valid config.gpio = true ∧
    (probe_core config env).st.registered = true ∧
    (probe_core config env).pin_init =
      some (probeInitLevel config.enabled_at_boot config.enable_high) := by
  by_cases hda : env.drvdata_alloc_ok = true
  · by_cases hnd : env.name_dup_ok = true
    · cases hsn : config.supply_name with
      | none => simp [probe_core, hda, hnd, hsn] at h
      | some name =>
        cases hin : config.input_supply with
        | some s =>
          by_cases hsd : env.supply_dup_ok = true
          · have hred : probe_core config env =
                probe_tail config env name (some s) ⟨true, true, false, false⟩ := by
              simp [probe_core, hda, hnd, hsn, hin, hsd, ResState.empty]
            rw [hred] at h ⊢
            obtain ⟨hd, hg, hr, hp⟩ := probe_tail_ok _ _ _ _ _ _ h
            exact ⟨⟨name, some s, hd⟩, hg, hr, hp⟩
          · simp [probe_core, hda, hnd, hsn, hin, hsd] at h
        | none =>
          have hred : probe_core config env =
              probe_tail config env name none ⟨true, false, false, false⟩ := by
            simp [probe_core, hda, hnd, hsn, hin, ResState.empty]
          rw [hred] at h ⊢
          obtain ⟨hd, hg, hr, hp⟩ := probe_tail_ok _ _ _ _ _ _ h
          exact ⟨⟨name, none, hd⟩, hg, hr, hp⟩
    · simp [probe_core, hda, hnd] at h
  · simp [probe_core, hda] at h

/-- Inversion for a successful extraction: the init data was present, the
voltage range was degenerate, and the key config fields are copies of the
corresponding description fields. -/
lemma of_get_ok_fields (np : OFNode) (init : RegulatorInitData)
    (config : MvVbusConfig) (hinit : np.init_data = some init)
    (h : of_get_mv_vbus_config true np = Except.ok config) :
    config.microvolts = init.min_uV ∧
    config.enable_high = np.enable_active_high ∧
    config.enabled_at_boot = init.boot_on ∧
    init.min_uV = init.max_uV := by
  by_cases hmm : init.min_uV = init.max_uV
  · by_cases hg : np.gpio_lookup = -ENODEV ∨ np.gpio_lookup = -EPROBE_DEFER
    · simp [of_get_mv_vbus_config, hinit, hmm, hg] at h
    · simp [of_get_mv_vbus_config, hinit, hmm, hg] at h
      subst h
      exact ⟨hmm.symm, rfl, rfl, hmm⟩
  · simp [of_get_mv_vbus_config, hinit, hmm] at h

/-! Claim theorems. -/

/-- C1: the claim states that when regulator_register fails after the GPIO
was acquired, the probe error path releases the pin before propagating the
error. The code contradicts this: on a concrete device-tree device (5 V rail
on gpio 42) where only registration fails with -EINVAL, probe propagates
-EINVAL and frees both strings, but the final resource state still has
pin_owned = true, because the err_input label contains no gpio_free call. -/
theorem claim_C1_code_bug :
    mv_vbus_reg_probe (some sampleNode) none regFailEnv =
      ⟨Except.error (-EINVAL), ⟨false, false, true, false⟩, some false⟩ := rfl

/-- C2: the claim states that remove unregisters, then releases the GPIO pin,
then frees the strings. The code contradicts this: mv_vbus_reg_remove on a
live instance returns 0 and frees the strings after unregistering, but its
call sequence contains no gpio_free at all, so the pin stays owned. -/
theorem claim_C2_code_bug :
    (mv_vbus_reg_remove liveState).1 = 0 ∧
    (mv_vbus_reg_remove liveState).2.1.pin_owned = true ∧
    ¬ DriverAction.gpio_free ∈ (mv_vbus_reg_remove liveState).2.2 ∧
    (mv_vbus_reg_remove liveState).2.2 =
      [DriverAction.unregister, DriverAction.kfree_supply_name,
       DriverAction.kfree_name] := by
  refine ⟨rfl, rfl, ?_, rfl⟩
  decide

/-- C3: the claim states that every failing probe step releases exactly the
resources of its predecessor steps; in particular a pin-acquisition failure
must free both the name copy and the input-supply copy. The code contradicts
this: on a platform config with an input supply present and gpio 42, when
gpio_request_one fails with -EBUSY (-16), probe jumps to err_name, which
frees only desc.name; the final state leaks supply_alloc = true. -/
theorem claim_C3_code_bug :
    mv_vbus_reg_probe none (some leakCfg) busyEnv =
      ⟨Except.error (-16), ⟨false, true, false, false⟩, none⟩ := rfl

/-- C9: for every core instance, list_voltage 0 returns the configured fixed
voltage, and list_voltage n for every selector n different from 0 fails with
-EINVAL (InvalidSelector). The function only reads the data, so neither case
changes any state. -/
theorem claim_C9 (d : MvVbusData) :
    mv_vbus_list_voltage d 0 = d.microvolts ∧
    ∀ n : Nat, n ≠ 0 → mv_vbus_list_voltage d n = -EINVAL := by
  constructor
  · simp [mv_vbus_list_voltage]
  · intro n hn
    simp [mv_vbus_list_voltage, hn]

/-- Witness for C9 at a concrete instance: selector 0 yields the stored
voltage and selector 3 yields -EINVAL. -/
theorem claim_C9_witness :
    mv_vbus_list_voltage sampleDrv 0 = sampleDrv.microvolts ∧
    mv_vbus_list_voltage sampleDrv 3 = -EINVAL :=
  ⟨(claim_C9 sampleDrv).1, (claim_C9 sampleDrv).2 3 (by decide)⟩

/-- C10: on a core whose stored voltage is 0, list_voltage 0 returns 0 as a
successful (nonnegative) result, while get_voltage fails with -EINVAL: the
defensive zero-voltage rejection exists only in mv_vbus_get_voltage, not in
mv_vbus_list_voltage. -/
theorem claim_C10 :
    mv_vbus_list_voltage zeroVoltDrv 0 = 0 ∧
    (0 : Int) ≤ mv_vbus_list_voltage zeroVoltDrv 0 ∧
    mv_vbus_get_voltage zeroVoltDrv = -EINVAL := by
  decide

/-- C4: for every pair of flags, whenever probe reaches a successful
gpio_request_one (device data allocated, name duplicated, input-supply
duplication not failing, gpio valid, request succeeding), the initial level
the pin is driven to is: high for (enabled_at_boot, enable_high) =
(true, true), low for (true, false), low for (false, true) and high for
(false, false) - exactly the four cases of the table in the spec. -/
theorem claim_C4 (cfg : MvVbusConfig) (env : ProbeEnv) (name : String)
    (hdrv : env.drvdata_alloc_ok = true)
    (hdup : env.name_dup_ok = true)
    (hname : cfg.supply_name = some name)
    (hsupply : cfg.input_supply = none ∨ env.supply_dup_ok = true)
    (hpin : gpio_is_valid cfg.gpio = true)
    (hreq : env.gpio_request_result = 0) :
    (mv_vbus_reg_probe none (some cfg) env).pin_init =
      some (match cfg.enabled_at_boot, cfg.enable_high with
            | true, true => true
            | true, false => false
            | false, true => false
            | false, false => true) := by
  have hpc : mv_vbus_reg_probe none (some cfg) env = probe_core cfg env := rfl
  rw [hpc]
  have htail : ∀ sn st,
      (probe_tail cfg env name sn st).pin_init =
        some (probeInitLevel cfg.enabled_at_boot cfg.enable_high) := by
    intro sn st
    cases hro : env.register_ok <;> simp [probe_tail, hpin, hreq, hro]
  have hlvl : probeInitLevel cfg.enabled_at_boot cfg.enable_high =
      (match cfg.enabled_at_boot, cfg.enable_high with
       | true, true => true
       | true, false => false
       | false, true => false
       | false, false => true) := by
    cases hb : cfg.enabled_at_boot <;> cases hh : cfg.enable_high <;>
      simp [probeInitLevel]
  rcases hsupply with hs | hs
  · rw [show probe_core cfg env = probe_tail cfg env name none
        ⟨true, false, false, false⟩ by
      simp [probe_core, hdrv, hdup, hname, hs, ResState.empty]]
    rw [htail, hlvl]
  · cases hin : cfg.input_supply with
    | none =>
      rw [show probe_core cfg env = probe_tail cfg env name none
          ⟨true, false, false, false⟩ by
        simp [probe_core, hdrv, hdup, hname, hin, ResState.empty]]
      rw [htail, hlvl]
    | some s =>
      rw [show probe_core cfg env = probe_tail cfg env name (some s)
          ⟨true, true, false, false⟩ by
        simp [probe_core, hdrv, hdup, hname, hin, hs, ResState.empty]]
      rw [htail, hlvl]

/-- Witness for C4: a concrete active-high config that is off at boot is
driven low at acquisition. -/
theorem claim_C4_witness :
    gpio_is_valid (42 : Int) = true ∧
    (mv_vbus_reg_probe none (some sampleCfg) allOkEnv).pin_init = some false :=
  ⟨by decide,
   claim_C4 sampleCfg allOkEnv "vbus" rfl rfl rfl (Or.inl rfl) (by decide) rfl⟩

/-- C5: for every core instance produced by a successful probe, the stored
polarity-inversion flag is the negation of the configured enable_high flag;
enable drives the pin to xor true invert and disable drives it to
xor false invert; and on any instance with the opposite inversion flag the
same logical request drives the negated level. -/
theorem claim_C5 (cfg : MvVbusConfig) (env : ProbeEnv) (d : MvVbusData)
    (hres : (mv_vbus_reg_probe none (some cfg) env).result = Except.ok d) :
    d.ena_gpio_invert = !cfg.enable_high ∧
    (mv_vbus_enable_supply (some d)).2 =
      some (Bool.xor true d.ena_gpio_invert) ∧
    (mv_vbus_disable_supply (some d)).2 =
      some (Bool.xor false d.ena_gpio_invert) ∧
    ∀ (d₂ : MvVbusData) (req : Bool),
      d₂.ena_gpio_invert = !d.ena_gpio_invert →
      (mv_vbus_gpio_set (some d₂) req).2 =
        some (!(Bool.xor req d.ena_gpio_invert)) := by
  have h' : (probe_core cfg env).result = Except.ok d := hres
  obtain ⟨⟨name, sn, hd⟩, -, -, -⟩ := probe_core_ok cfg env d h'
  refine ⟨by rw [hd]; rfl, ?_, ?_, ?_⟩
  · cases hinv : d.ena_gpio_invert <;>
      simp [mv_vbus_enable_supply, mv_vbus_gpio_set, hinv]
  · cases hinv : d.ena_gpio_invert <;>
      simp [mv_vbus_disable_supply, mv_vbus_gpio_set, hinv]
  · intro d₂ req h2
    cases hq : req <;> cases hinv : d.ena_gpio_invert <;>
      simp [mv_vbus_gpio_set, h2, hinv]

/-- Witness for C5: the concrete active-high sample instance has the
inversion flag false. -/
theorem claim_C5_witness :
    (mv_vbus_reg_probe none (some sampleCfg) allOkEnv).result =
      Except.ok sampleDrv ∧
    sampleDrv.ena_gpio_invert = !sampleCfg.enable_high :=
  ⟨rfl, (claim_C5 sampleCfg allOkEnv sampleDrv rfl).1⟩

/-- C6: with the config allocation succeeding and the init data present,
extraction fails with -EINVAL (InvalidVoltageRange) exactly when the
description has min_uV different from max_uV; and when min_uV = max_uV = V
with V positive, any config extraction returns carries microvolts = V, and
mv_vbus_get_voltage on the core a successful probe builds from the node
returns V. -/
theorem claim_C6 (np : OFNode) (init : RegulatorInitData)
    (hinit : np.init_data = some init) :
    (of_get_mv_vbus_config true np = Except.error (-EINVAL) ↔
      ¬ init.min_uV = init.max_uV) ∧
    ∀ V : Int, init.min_uV = V → init.max_uV = V → 0 < V →
      (∀ c, of_get_mv_vbus_config true np = Except.ok c → c.microvolts = V) ∧
      (∀ (env : ProbeEnv) (d : MvVbusData), env.config_alloc_ok = true →
        (mv_vbus_reg_probe (some np) none env).result = Except.ok d →
        mv_vbus_get_voltage d = V) := by
  constructor
  · by_cases hmm : init.min_uV = init.max_uV
    · constructor
      · intro habs
        by_cases hg : np.gpio_lookup = -ENODEV ∨ np.gpio_lookup = -EPROBE_DEFER
        · rw [show of_get_mv_vbus_config true np =
              Except.error (-EPROBE_DEFER) by
            simp [of_get_mv_vbus_config, hinit, hmm, hg]] at habs
          simp only [Except.error.injEq] at habs
          exact absurd habs (by decide)
        · simp [of_get_mv_vbus_config, hinit, hmm, hg] at habs
      · intro hcon
        exact absurd hmm hcon
    · constructor
      · intro _
        exact hmm
      · intro _
        simp [of_get_mv_vbus_config, hinit, hmm]
  · intro V hminV hmaxV hV
    have hmm : init.min_uV = init.max_uV := by rw [hminV, hmaxV]
    constructor
    · intro c hc
      rw [(of_get_ok_fields np init c hinit hc).1, hminV]
    · intro env d hca hres
      cases hEx : of_get_mv_vbus_config env.config_alloc_ok np with
      | error e =>
        rw [show mv_vbus_reg_probe (some np) none env =
            ⟨Except.error e, ResState.empty, none⟩ by
          simp [mv_vbus_reg_probe, hEx]] at hres
        simp at hres
      | ok config =>
        have hres' : (probe_core config env).result = Except.ok d := by
          rw [show mv_vbus_reg_probe (some np) none env =
              probe_core config env by simp [mv_vbus_reg_probe, hEx]] at hres
          exact hres
        obtain ⟨⟨nm, sn, hd⟩, -, -, -⟩ := probe_core_ok config env d hres'
        rw [hca] at hEx
        have hcm : config.microvolts = V := by
          rw [(of_get_ok_fields np init config hinit hEx).1, hminV]
        have hdm : d.microvolts = V := by
          rw [hd]
          simpa [mkDrvdata] using hcm
        have hVne : V ≠ 0 := by omega
        simp [mv_vbus_get_voltage, hdm, hVne]

/-- Witness for C6 at the concrete 5 V sample node. -/
theorem claim_C6_witness :
    sampleNode.init_data = some sampleInit ∧
    (of_get_mv_vbus_config true sampleNode = Except.error (-EINVAL) ↔
      ¬ sampleInit.min_uV = sampleInit.max_uV) :=
  ⟨rfl, (claim_C6 sampleNode sampleInit rfl).1⟩

/-- C7: when the gpio lookup reports -ENODEV (not present) or -EPROBE_DEFER
(not ready yet) on a node whose voltage range is degenerate, extraction fails
with -EPROBE_DEFER, probe returns exactly that error with the empty resource
state (no pin ownership, no string allocations, no registration) and no pin
level ever driven, and -EPROBE_DEFER is distinct from the fatal codes -EINVAL
and -ENOMEM. -/
theorem claim_C7 (np : OFNode) (init : RegulatorInitData) (env : ProbeEnv)
    (pd : Option MvVbusConfig)
    (hinit : np.init_data = some init)
    (hmm : init.min_uV = init.max_uV)
    (hg : np.gpio_lookup = -ENODEV ∨ np.gpio_lookup = -EPROBE_DEFER)
    (hca : env.config_alloc_ok = true) :
    of_get_mv_vbus_config true np = Except.error (-EPROBE_DEFER) ∧
    mv_vbus_reg_probe (some np) pd env =
      ⟨Except.error (-EPROBE_DEFER), ResState.empty, none⟩ ∧
    (-EPROBE_DEFER : Int) ≠ -EINVAL ∧ (-EPROBE_DEFER : Int) ≠ -ENOMEM := by
  have hext : of_get_mv_vbus_config true np = Except.error (-EPROBE_DEFER) := by
    simp [of_get_mv_vbus_config, hinit, hmm, hg]
  refine ⟨hext, ?_, by decide, by decide⟩
  have hext' : of_get_mv_vbus_config env.config_alloc_ok np =
      Except.error (-EPROBE_DEFER) := by
    rw [hca]
    exact hext
  simp [mv_vbus_reg_probe, hext']

/-- Witness for C7 at a concrete node whose gpio lookup is -ENODEV. -/
theorem claim_C7_witness :
    of_get_mv_vbus_config true deferNode = Except.error (-EPROBE_DEFER) ∧
    mv_vbus_reg_probe (some deferNode) none allOkEnv =
      ⟨Except.error (-EPROBE_DEFER), ResState.empty, none⟩ :=
  ⟨(claim_C7 deferNode sampleInit allOkEnv none rfl rfl (Or.inl rfl) rfl).1,
   (claim_C7 deferNode sampleInit allOkEnv none rfl rfl (Or.inl rfl) rfl).2.1⟩

/-- C8 counterexample: the claim states that probe rejects every
configuration with microvolts at most 0 before the core becomes live. It is
false on the concrete device-tree node declaring a degenerate 0-microvolt
range on valid gpio 42: with every external call succeeding, probe returns
the core carrying microvolts = 0 and the final state is registered, so the
zero-volt core became live. -/
theorem claim_C8_counterexample :
    (mv_vbus_reg_probe (some zeroVoltNode) none allOkEnv).result =
      Except.ok zeroVoltDrv ∧
    (mv_vbus_reg_probe (some zeroVoltNode) none allOkEnv).st.registered =
      true ∧
    zeroVoltDrv.microvolts ≤ 0 :=
  ⟨rfl, rfl, by decide⟩

/-- C8 amended: probe does reject every configuration with an invalid pin
(never registering and never taking pin ownership), and on the device-tree
path a description with a non-degenerate voltage range never reaches
construction; but a configuration with microvolts at most 0 is not rejected
(see the counterexample). -/
theorem claim_C8_amended :
    (∀ (cfg : MvVbusConfig) (env : ProbeEnv),
      gpio_is_valid cfg.gpio = false →
      (mv_vbus_reg_probe none (some cfg) env).st.registered = false ∧
      (mv_vbus_reg_probe none (some cfg) env).st.pin_owned = false ∧
      ∀ d, ¬ (mv_vbus_reg_probe none (some cfg) env).result = Except.ok d) ∧
    (∀ (np : OFNode) (init : RegulatorInitData) (pd : Option MvVbusConfig)
      (env : ProbeEnv),
      np.init_data = some init → ¬ init.min_uV = init.max_uV →
      (mv_vbus_reg_probe (some np) pd env).st.registered = false ∧
      (mv_vbus_reg_probe (some np) pd env).st.pin_owned = false ∧
      ∀ d, ¬ (mv_vbus_reg_probe (some np) pd env).result = Except.ok d) := by
  constructor
  · intro cfg env hg
    have hpc : mv_vbus_reg_probe none (some cfg) env = probe_core cfg env :=
      rfl
    rw [hpc]
    have hgt : ¬ gpio_is_valid cfg.gpio = true := by simp [hg]
    by_cases hda : env.drvdata_alloc_ok = true
    · by_cases hnd : env.name_dup_ok = true
      · cases hsn : cfg.supply_name with
        | none => simp [probe_core, hda, hnd, hsn, ResState.empty]
        | some name =>
          cases hin : cfg.input_supply with
          | some s =>
            by_cases hsd : env.supply_dup_ok = true
            · simp [probe_core, probe_tail, hda, hnd, hsn, hin, hsd, hgt,
                ResState.empty]
            · simp [probe_core, hda, hnd, hsn, hin, hsd, ResState.empty]
          | none =>
            simp [probe_core, probe_tail, hda, hnd, hsn, hin, hgt,
              ResState.empty]
      · simp [probe_core, hda, hnd, ResState.empty]
    · simp [probe_core, hda, ResState.empty]
  · intro np init pd env hinit hmm
    have hEx : ∃ e, of_get_mv_vbus_config env.config_alloc_ok np =
        Except.error e := by
      cases hca : env.config_alloc_ok with
      | true => exact ⟨-EINVAL, by simp [of_get_mv_vbus_config, hinit, hmm]⟩
      | false => exact ⟨-ENOMEM, by simp [of_get_mv_vbus_config]⟩
    obtain ⟨e, he⟩ := hEx
    simp [mv_vbus_reg_probe, he, ResState.empty]

/-- Witness for the amended C8 at a concrete config whose pin is -5. -/
theorem claim_C8_amended_witness :
    gpio_is_valid badPinCfg.gpio = false ∧
    (mv_vbus_reg_probe none (some badPinCfg) allOkEnv).st.registered = false ∧
    (mv_vbus_reg_probe none (some badPinCfg) allOkEnv).st.pin_owned = false :=
  ⟨by decide,
   (claim_C8_amended.1 badPinCfg allOkEnv (by decide)).1,
   (claim_C8_amended.1 badPinCfg allOkEnv (by decide)).2.1⟩
